import Mathlib

/-!
Verification development for the Self Session v0 consent-and-authority core
(session state machine, audit log, authority tokens, confirmation tokens,
execution guard).  The Python sources are shallowly embedded: each class
becomes a structure, each mutating method a function returning the updated
structure, `datetime` values become integers (seconds), raising an exception
becomes an explicit flag with the receiver returned unchanged, and the
optional attached audit log becomes an `Option (List AuditLogEntry)`.
-/

namespace SelfSession

/-- Canonical session states S0–S7 (`SessionState` in the source). -/
inductive SessionState where
  | S0_INACTIVE
  | S1_SESSION_REQUESTED
  | S2_CONSENT_GRANTED
  | S3_EXECUTING
  | S4_ACC_CHECKPOINT
  | S5_PAUSED
  | S6_HALTED
  | S7_COMPLETED
deriving DecidableEq, Repr, Fintype

open SessionState

/-- Legal transitions, explicitly enumerated (`LEGAL_TRANSITIONS` dict). -/
def LEGAL_TRANSITIONS : SessionState → List SessionState
  | S0_INACTIVE => [S1_SESSION_REQUESTED]
  | S1_SESSION_REQUESTED => [S0_INACTIVE, S2_CONSENT_GRANTED]
  | S2_CONSENT_GRANTED => [S0_INACTIVE, S3_EXECUTING, S6_HALTED]
  | S3_EXECUTING => [S4_ACC_CHECKPOINT, S6_HALTED, S7_COMPLETED]
  | S4_ACC_CHECKPOINT => [S3_EXECUTING, S5_PAUSED, S6_HALTED]
  | S5_PAUSED => [S4_ACC_CHECKPOINT, S6_HALTED, S0_INACTIVE]
  | S6_HALTED => [S0_INACTIVE]
  | S7_COMPLETED => [S0_INACTIVE]

/-- Audit log entry (`AuditLogEntry` dataclass).  `extra` models the
`failed_conditions` list the execution guard stores in the `extra` dict. -/
structure AuditLogEntry where
  timestamp : Int
  event_type : String
  from_state : Option SessionState
  to_state : Option SessionState
  reason : String
  authority_valid : Option Bool
  extra : Option (List String) := none
deriving DecidableEq, Repr

/-- Session state machine (`SessionStateMachine`): current state plus its
own audit log (`AuditLog` is a plain list of entries, append-only). -/
structure SessionStateMachine where
  session_id : String
  current_state : SessionState := S0_INACTIVE
  audit_log : List AuditLogEntry := []
deriving DecidableEq, Repr

/-- The STATE_TRANSITION entry `transition` appends on success. -/
def transitionEntry (fromState toState : SessionState) (reason : String)
    (authorityValid : Option Bool) (now : Int) : AuditLogEntry :=
  { timestamp := now
    event_type := "STATE_TRANSITION"
    from_state := some fromState
    to_state := some toState
    reason := reason
    authority_valid := authorityValid }

/-- Embedding of `SessionStateMachine.transition`.  The first component is
`true` when the transition succeeded and `false` when the method raised
`IllegalTransitionError`; the raise happens before any mutation, so on the
error branch the machine is returned unchanged. -/
def transition (m : SessionStateMachine) (to_state : SessionState)
    (reason : String) (authority_valid : Option Bool) (now : Int) :
    Bool × SessionStateMachine :=
  if to_state ∈ LEGAL_TRANSITIONS m.current_state then
    (true,
      { m with
        audit_log := m.audit_log ++
          [transitionEntry m.current_state to_state reason authority_valid now]
        current_state := to_state })
  else
    (false, m)

/-- Embedding of `SessionStateMachine.check_can_execute`: true only in S3,
and every call appends an AUTHORITY_CHECK entry. -/
def check_can_execute (m : SessionStateMachine) (now : Int) :
    Bool × SessionStateMachine :=
  let authorityValid : Bool := m.current_state = S3_EXECUTING
  let entry : AuditLogEntry :=
    { timestamp := now
      event_type := "AUTHORITY_CHECK"
      from_state := some m.current_state
      to_state := none
      reason := s!"can_execute check: {authorityValid}"
      authority_valid := some authorityValid }
  (authorityValid, { m with audit_log := m.audit_log ++ [entry] })

/-- Embedding of `SessionStateMachine.verify_transition_is_legal`. -/
def verify_transition_is_legal (from_state to_state : SessionState) : Bool :=
  to_state ∈ LEGAL_TRANSITIONS from_state

/-- Authority token (`AuthorityToken` dataclass). -/
structure AuthorityToken where
  token_id : String
  session_id : String
  issued_at : Int
  ttl_seconds : Int
  scope : String
  is_revoked : Bool := false
  revoked_at : Option Int := none
deriving DecidableEq, Repr

/-- Embedding of `AuthorityToken.is_expired`: `now >= issued_at + ttl`. -/
def AuthorityToken.is_expired (t : AuthorityToken) (current_time : Int) : Bool :=
  t.issued_at + t.ttl_seconds ≤ current_time

/-- Embedding of `AuthorityToken.is_valid`: not revoked and not expired. -/
def AuthorityToken.is_valid (t : AuthorityToken) (current_time : Int) : Bool :=
  !t.is_revoked && !t.is_expired current_time

/-- Embedding of `AuthorityToken.revoke`. -/
def AuthorityToken.revoke (t : AuthorityToken) (revoke_time : Int) : AuthorityToken :=
  { t with is_revoked := true, revoked_at := some revoke_time }

/-- Python dict insertion `d[k] = v` on an association list: replace the
binding when the key is present, append otherwise. -/
def dictInsert {α : Type} (l : List (String × α)) (k : String) (v : α) :
    List (String × α) :=
  if (l.lookup k).isSome then
    l.map (fun p => if p.1 = k then (p.1, v) else p)
  else
    l ++ [(k, v)]

/-- In-place mutation of the object stored under key `k` of a Python dict
(the Python methods mutate the token found in `self._tokens`): apply `f`
to the value bound to `k`, keep every other binding. -/
def updateEntry {α : Type} (l : List (String × α)) (k : String) (f : α → α) :
    List (String × α) :=
  l.map (fun p => if p.1 = k then (p.1, f p.2) else p)

/-- Authority manager (`AuthorityManager`): token map, per-session index,
optional attached audit log (`audit_log=None` in the constructor). -/
structure AuthorityManager where
  tokens : List (String × AuthorityToken) := []
  session_tokens : List (String × List String) := []
  audit_log : Option (List AuditLogEntry) := none
deriving DecidableEq, Repr

/-- The AUTHORITY_CHECK entry `validate_token` appends for a known id. -/
def authorityCheckEntry (token_id : String) (isValid : Bool) (now : Int) :
    AuditLogEntry :=
  let tid8 := token_id.take 8
  { timestamp := now
    event_type := "AUTHORITY_CHECK"
    from_state := none
    to_state := none
    reason := s!"Token {tid8}... validation: {isValid}"
    authority_valid := some isValid }

/-- The AUTHORITY_REVOKED entry `revoke_token` appends for a known id. -/
def authorityRevokedEntry (token_id : String) (now : Int) : AuditLogEntry :=
  let tid8 := token_id.take 8
  { timestamp := now
    event_type := "AUTHORITY_REVOKED"
    from_state := none
    to_state := none
    reason := s!"Token {tid8}... revoked"
    authority_valid := some false }

/-- The AUTHORITY_ISSUED entry `issue_token` appends. -/
def authorityIssuedEntry (token_id : String) (ttl_seconds now : Int) :
    AuditLogEntry :=
  let tid8 := token_id.take 8
  { timestamp := now
    event_type := "AUTHORITY_ISSUED"
    from_state := none
    to_state := none
    reason := s!"Token {tid8}... issued with TTL {ttl_seconds}s"
    authority_valid := some true }

/-- Embedding of `AuthorityManager.issue_token`.  The Python method draws a
fresh UUID for the token id; the embedding takes the id as a parameter
(freshness is a hypothesis where a proof needs it). -/
def issue_token (m : AuthorityManager) (token_id session_id : String)
    (ttl_seconds : Int) (scope : String) (now : Int) :
    AuthorityToken × AuthorityManager :=
  let token : AuthorityToken :=
    { token_id := token_id
      session_id := session_id
      issued_at := now
      ttl_seconds := ttl_seconds
      scope := scope }
  let sessionIds := (m.session_tokens.lookup session_id).getD []
  let log' := m.audit_log.map
    (fun l => l ++ [authorityIssuedEntry token_id ttl_seconds now])
  (token,
    { m with
      tokens := dictInsert m.tokens token_id token
      session_tokens := dictInsert m.session_tokens session_id
        (sessionIds ++ [token_id])
      audit_log := log' })

/-- Embedding of `AuthorityManager.validate_token`: unknown id returns
false immediately with nothing appended; a known id is checked with
`AuthorityToken.is_valid` and an AUTHORITY_CHECK entry is appended. -/
def validate_token (m : AuthorityManager) (token_id : String)
    (current_time : Int) : Bool × AuthorityManager :=
  match m.tokens.lookup token_id with
  | none => (false, m)
  | some token =>
    let isValid := token.is_valid current_time
    (isValid,
      { m with
        audit_log := m.audit_log.map
          (fun l => l ++ [authorityCheckEntry token_id isValid current_time]) })

/-- Embedding of `AuthorityManager.revoke_token`: unknown id is a no-op;
a known id is revoked in place and AUTHORITY_REVOKED is appended. -/
def revoke_token (m : AuthorityManager) (token_id : String)
    (revoke_time : Int) : AuthorityManager :=
  match m.tokens.lookup token_id with
  | none => m
  | some _ =>
    { m with
      tokens := updateEntry m.tokens token_id
        (fun tok => tok.revoke revoke_time)
      audit_log := m.audit_log.map
        (fun l => l ++ [authorityRevokedEntry token_id revoke_time]) }

/-- Embedding of `AuthorityManager.revoke_session_tokens`: revoke every
token id indexed under the session. -/
def revoke_session_tokens (m : AuthorityManager) (session_id : String)
    (revoke_time : Int) : AuthorityManager :=
  match m.session_tokens.lookup session_id with
  | none => m
  | some token_ids =>
    token_ids.foldl (fun acc tid => revoke_token acc tid revoke_time) m

/-- One operation of the authority manager's public mutating interface. -/
inductive AuthOp where
  | issue (token_id session_id : String) (ttl_seconds : Int) (scope : String)
      (now : Int)
  | validate (token_id : String) (now : Int)
  | revoke (token_id : String) (now : Int)
  | revokeSession (session_id : String) (now : Int)
deriving DecidableEq, Repr

/-- State-transition function of the authority manager: run one operation,
keeping only the updated manager. -/
def authStep (m : AuthorityManager) : AuthOp → AuthorityManager
  | .issue tid sid ttl scope now => (issue_token m tid sid ttl scope now).2
  | .validate tid now => (validate_token m tid now).2
  | .revoke tid now => revoke_token m tid now
  | .revokeSession sid now => revoke_session_tokens m sid now

/-- An issue operation uses a fresh UUID: its token id is not already a
key of the token map.  Other operations are unconstrained. -/
def OpFresh (m : AuthorityManager) : AuthOp → Prop
  | .issue tid _ _ _ _ => m.tokens.lookup tid = none
  | _ => True

/-- Run a list of operations left to right. -/
def authRun (m : AuthorityManager) (ops : List AuthOp) : AuthorityManager :=
  ops.foldl authStep m

/-- Every operation of the list uses a fresh UUID at the state where it
runs (vacuous for everything but `issue`). -/
def FreshRun : AuthorityManager → List AuthOp → Prop
  | _, [] => True
  | m, op :: ops => OpFresh m op ∧ FreshRun (authStep m op) ops

/-- Silence tracker (`SilenceTracker`). -/
structure SilenceTracker where
  timeout_seconds : Int := 30
  last_user_action_time : Option Int := none
deriving DecidableEq, Repr

/-- Embedding of `SilenceTracker.check_silence`: no recorded action counts
as silence; otherwise silent iff strictly past the timeout. -/
def SilenceTracker.check_silence (s : SilenceTracker) (current_time : Int) :
    Bool :=
  match s.last_user_action_time with
  | none => true
  | some t => s.timeout_seconds < current_time - t

/-- Embedding of `SilenceTracker.record_user_action`. -/
def SilenceTracker.record_user_action (s : SilenceTracker) (timestamp : Int) :
    SilenceTracker :=
  { s with last_user_action_time := some timestamp }

/-- TTL enforcer (`TTLEnforcer`): `created_at` stays `none` until
`initialize` is called. -/
structure TTLEnforcer where
  ttl_seconds : Int
  created_at : Option Int := none
deriving DecidableEq, Repr

/-- Embedding of `TTLEnforcer.initialize`. -/
def TTLEnforcer.initialize (e : TTLEnforcer) (created_at : Int) : TTLEnforcer :=
  { e with created_at := some created_at }

/-- Embedding of `TTLEnforcer.is_expired`: uninitialized returns false;
otherwise expired iff `now >= created_at + ttl_seconds`. -/
def TTLEnforcer.is_expired (e : TTLEnforcer) (current_time : Int) : Bool :=
  match e.created_at with
  | none => false
  | some c => c + e.ttl_seconds ≤ current_time

/-- Embedding of `TTLEnforcer.get_remaining`: uninitialized returns zero;
otherwise the remaining time clamped to zero. -/
def TTLEnforcer.get_remaining (e : TTLEnforcer) (current_time : Int) : Int :=
  match e.created_at with
  | none => 0
  | some c =>
    let remaining := c + e.ttl_seconds - current_time
    if 0 < remaining then remaining else 0

/-- Confirmation challenge variants (`ConfirmationType`). -/
inductive ConfirmationType where
  | TYPE_CODE
  | VOICE_PHRASE
  | DELIBERATE_GESTURE
  | ARTICULATED_UNDERSTANDING
deriving DecidableEq, Repr

/-- Single-use confirmation token (`ConfirmationToken` dataclass). -/
structure ConfirmationToken where
  token_id : String
  session_id : String
  acc_event_id : String
  confirmation_type : ConfirmationType
  issued_at : Int
  ttl_seconds : Int
  challenge_payload : String
  challenge_hash : String
  is_used : Bool := false
  used_at : Option Int := none
  was_valid : Option Bool := none
deriving DecidableEq, Repr

/-- Embedding of `ConfirmationToken.is_expired`. -/
def ConfirmationToken.is_expired (t : ConfirmationToken)
    (current_time : Int) : Bool :=
  t.issued_at + t.ttl_seconds ≤ current_time

/-- Embedding of `ConfirmationToken.can_validate`: not yet used and not
expired. -/
def ConfirmationToken.can_validate (t : ConfirmationToken)
    (current_time : Int) : Bool :=
  !t.is_used && !t.is_expired current_time

/-- Embedding of `ConfirmationToken.mark_used`: sets `is_used`, records
the outcome and the time.  Note the source guards none of these writes, so
a second call overwrites `was_valid` and `used_at`. -/
def ConfirmationToken.mark_used (t : ConfirmationToken) (validated : Bool)
    (validation_time : Int) : ConfirmationToken :=
  { t with
    is_used := true
    was_valid := some validated
    used_at := some validation_time }

/-- Confirmation manager (`ConfirmationManager`): token map, per-ACC-event
index, optional attached audit log. -/
structure ConfirmationManager where
  tokens : List (String × ConfirmationToken) := []
  acc_tokens : List (String × List String) := []
  audit_log : Option (List AuditLogEntry) := none
deriving DecidableEq, Repr

/-- The CONFIRMATION_TOKEN_ISSUED entry `issue_confirmation` appends. -/
def confirmationIssuedEntry (token_id acc_event_id : String) (now : Int) :
    AuditLogEntry :=
  let tid8 := token_id.take 8
  let acc8 := acc_event_id.take 8
  { timestamp := now
    event_type := "CONFIRMATION_TOKEN_ISSUED"
    from_state := none
    to_state := none
    reason := s!"ACC token {tid8}... issued for event {acc8}..."
    authority_valid := none }

/-- The CONFIRMATION_VALIDATED entry `validate_confirmation` appends when
it reaches the hash comparison. -/
def confirmationValidatedEntry (token_id : String) (isValid : Bool)
    (now : Int) : AuditLogEntry :=
  let tid8 := token_id.take 8
  { timestamp := now
    event_type := "CONFIRMATION_VALIDATED"
    from_state := none
    to_state := none
    reason := s!"Token {tid8}... validation: {isValid}"
    authority_valid := some isValid }

/-- The CONFIRMATION_TOKEN_REVOKED entry `revoke_token` appends. -/
def confirmationRevokedEntry (token_id : String) (now : Int) : AuditLogEntry :=
  let tid8 := token_id.take 8
  { timestamp := now
    event_type := "CONFIRMATION_TOKEN_REVOKED"
    from_state := none
    to_state := none
    reason := s!"Token {tid8}... revoked"
    authority_valid := some false }

/-- Embedding of `ConfirmationManager.issue_confirmation`.  The Python
method draws a fresh UUID and a randomized challenge from `secrets`; the
embedding takes the id and the generated `(payload, hash)` pair as
parameters. -/
def issue_confirmation (m : ConfirmationManager)
    (token_id session_id acc_event_id : String)
    (confirmation_type : ConfirmationType)
    (challenge_payload challenge_hash : String)
    (ttl_seconds : Int) (now : Int) :
    ConfirmationToken × ConfirmationManager :=
  let token : ConfirmationToken :=
    { token_id := token_id
      session_id := session_id
      acc_event_id := acc_event_id
      confirmation_type := confirmation_type
      issued_at := now
      ttl_seconds := ttl_seconds
      challenge_payload := challenge_payload
      challenge_hash := challenge_hash }
  let accIds := (m.acc_tokens.lookup acc_event_id).getD []
  (token,
    { m with
      tokens := dictInsert m.tokens token_id token
      acc_tokens := dictInsert m.acc_tokens acc_event_id
        (accIds ++ [token_id])
      audit_log := m.audit_log.map
        (fun l => l ++ [confirmationIssuedEntry token_id acc_event_id now]) })

/-- Embedding of `ConfirmationManager.validate_confirmation`.  SHA-256 is
not reimplemented: `hash` is the hash function threaded in explicitly, and
the stored `challenge_hash` is compared against `hash user_response`.
Unknown id: false, no mutation.  Known id that cannot currently validate
(already used or expired): marked used with outcome false and the call
returns false with NO audit entry — this branch of the source appends
nothing.  Otherwise: outcome is the hash comparison, the token is marked
used with that outcome, CONFIRMATION_VALIDATED is appended. -/
def validate_confirmation (hash : String → String) (m : ConfirmationManager)
    (token_id user_response : String) (current_time : Int) :
    Bool × ConfirmationManager :=
  match m.tokens.lookup token_id with
  | none => (false, m)
  | some token =>
    if !token.can_validate current_time then
      (false,
        { m with
          tokens := updateEntry m.tokens token_id
            (fun tok => tok.mark_used false current_time) })
    else
      let isValid := hash user_response = token.challenge_hash
      (isValid,
        { m with
          tokens := updateEntry m.tokens token_id
            (fun tok => tok.mark_used isValid current_time)
          audit_log := m.audit_log.map (fun l =>
            l ++ [confirmationValidatedEntry token_id isValid current_time]) })

/-- Embedding of `ConfirmationManager.revoke_token`: unknown id is a
no-op; a known id is forced used with outcome false and
CONFIRMATION_TOKEN_REVOKED is appended. -/
def confirmation_revoke_token (m : ConfirmationManager) (token_id : String)
    (revocation_time : Int) : ConfirmationManager :=
  match m.tokens.lookup token_id with
  | none => m
  | some _ =>
    { m with
      tokens := updateEntry m.tokens token_id
        (fun tok => tok.mark_used false revocation_time)
      audit_log := m.audit_log.map (fun l =>
        l ++ [confirmationRevokedEntry token_id revocation_time]) }

/-- Execution guard (`ExecutionGuard` in Self_Session_v0_ExecutionGuard.py):
holds the state machine, the authority manager and the optional current
token id. -/
structure ExecutionGuard where
  state_machine : SessionStateMachine
  authority_manager : AuthorityManager
  current_token_id : Option String := none
deriving DecidableEq, Repr

/-- Embedding of `ExecutionGuard.check_in_executing_state`. -/
def check_in_executing_state (g : ExecutionGuard) : Bool :=
  g.state_machine.current_state = S3_EXECUTING

/-- Embedding of `ExecutionGuard.check_authority_valid`.  With no token id
it returns false without touching the manager; otherwise it calls
`validate_token`, whose audit side effect lands in the manager's log. -/
def check_authority_valid (g : ExecutionGuard) (current_time : Int) :
    Bool × AuthorityManager :=
  match g.current_token_id with
  | none => (false, g.authority_manager)
  | some tid => validate_token g.authority_manager tid current_time

/-- Embedding of `ExecutionGuard.check_ttl_valid`: absent enforcer passes. -/
def check_ttl_valid (ttl_enforcer : Option TTLEnforcer) (current_time : Int) :
    Bool :=
  match ttl_enforcer with
  | none => true
  | some e => !e.is_expired current_time

/-- Embedding of `ExecutionGuard.check_silence_not_exceeded`: absent
tracker passes. -/
def check_silence_not_exceeded (silence_tracker : Option SilenceTracker)
    (current_time : Int) : Bool :=
  match silence_tracker with
  | none => true
  | some s => !s.check_silence current_time

/-- Python truthiness of an optional string: `None` and the empty string
are falsy. -/
def truthy : Option String → Bool
  | none => false
  | some s => !(s = "")

/-- One conjunct of the source's `boundary_crossed` expression:
`current and session and current != session` under Python truthiness. -/
def pairCrossed (current session : Option String) : Bool :=
  truthy current && truthy session && !(current = session)

/-- Embedding of `ExecutionGuard.check_boundary_not_crossed`. -/
def check_boundary_not_crossed
    (current_file current_tool current_modality
     session_file session_tool session_modality : Option String) : Bool :=
  if !(truthy current_file || truthy current_tool || truthy current_modality)
  then true
  else
    !(pairCrossed current_file session_file
      || pairCrossed current_tool session_tool
      || pairCrossed current_modality session_modality)

/-- Embedding of `ExecutionGuard.check_capability_in_registry`: absent
registry passes. -/
def check_capability_in_registry (capability_id : String)
    (capability_registry : Option (List String)) : Bool :=
  match capability_registry with
  | none => true
  | some reg => capability_id ∈ reg

/-- Embedding of `ExecutionGuard.check_confidence_not_degraded`: degraded
iff the score is strictly below the 0.5 threshold (the float 0.5 is exact,
embedded as the rational 1/2). -/
def check_confidence_not_degraded (confidence_score : ℚ) : Bool :=
  !(confidence_score < mkRat 1 2)

/-- The keyword arguments of `can_execute_step` other than the clock. -/
structure GuardArgs where
  capability_id : String
  ttl_enforcer : Option TTLEnforcer := none
  silence_tracker : Option SilenceTracker := none
  capability_registry : Option (List String) := none
  current_file : Option String := none
  current_tool : Option String := none
  current_modality : Option String := none
  session_file : Option String := none
  session_tool : Option String := none
  session_modality : Option String := none
  confidence_score : ℚ := 1
deriving DecidableEq, Repr

/-- The `conditions` list built inside `can_execute_step`: the seven named
checks in source order. -/
def guardConditions (g : ExecutionGuard) (a : GuardArgs) (current_time : Int) :
    List (String × Bool) :=
  [("in_executing_state", check_in_executing_state g),
   ("authority_valid", (check_authority_valid g current_time).1),
   ("ttl_valid", check_ttl_valid a.ttl_enforcer current_time),
   ("silence_not_exceeded",
     check_silence_not_exceeded a.silence_tracker current_time),
   ("boundary_not_crossed",
     check_boundary_not_crossed a.current_file a.current_tool
       a.current_modality a.session_file a.session_tool a.session_modality),
   ("capability_in_registry",
     check_capability_in_registry a.capability_id a.capability_registry),
   ("confidence_not_degraded",
     check_confidence_not_degraded a.confidence_score)]

/-- Names of the conditions that failed, in source order. -/
def guardFailed (g : ExecutionGuard) (a : GuardArgs) (current_time : Int) :
    List String :=
  ((guardConditions g a current_time).filter (fun c => !c.2)).map
    (fun c => c.1)

/-- The EXECUTION_GUARD_FAILED entry, with the failed-condition names both
in the reason text and in `extra` (the `failed_conditions` key). -/
def guardFailedEntry (g : ExecutionGuard) (a : GuardArgs)
    (current_time : Int) : AuditLogEntry :=
  let failed := guardFailed g a current_time
  let joined := String.intercalate ", " failed
  { timestamp := current_time
    event_type := "EXECUTION_GUARD_FAILED"
    from_state := some g.state_machine.current_state
    to_state := none
    reason := s!"Conditions failed: {joined}"
    authority_valid := some false
    extra := some failed }

/-- Embedding of `ExecutionGuard.can_execute_step`: evaluate all seven
conditions (the authority check's audit side effect always happens), and
on any failure append EXECUTION_GUARD_FAILED to the state machine's audit
log. -/
def can_execute_step (g : ExecutionGuard) (a : GuardArgs)
    (current_time : Int) : Bool × ExecutionGuard :=
  let mgr' := (check_authority_valid g current_time).2
  let conds := guardConditions g a current_time
  let allPass := conds.all (fun c => c.2)
  if allPass then
    (true, { g with authority_manager := mgr' })
  else
    (false,
      { g with
        authority_manager := mgr'
        state_machine :=
          { g.state_machine with
            audit_log := g.state_machine.audit_log ++
              [guardFailedEntry g a current_time] } })

/-- Embedding of `ExecutionGuard.enforce_halt_on_failure`: the first
component is `true` when the method raised `ExecutionGuardViolation`. -/
def enforce_halt_on_failure (g : ExecutionGuard) (a : GuardArgs)
    (current_time : Int) : Bool × ExecutionGuard :=
  let r := can_execute_step g a current_time
  (!r.1, r.2)

/-- One-step legality relation of the transition table. -/
def LegalStep (a b : SessionState) : Prop := b ∈ LEGAL_TRANSITIONS a

instance : DecidableRel LegalStep := fun a b =>
  inferInstanceAs (Decidable (b ∈ LEGAL_TRANSITIONS a))

/-- Claim C1: `transition(B, reason)` raises IllegalTransitionError iff B
is not in the legal-transition set of the current state; on failure the
machine (state and audit log) is unchanged; on success the state becomes B
and exactly one STATE_TRANSITION entry with from_state = A and
to_state = B is appended. -/
theorem C1_transition_iff_legal (m : SessionStateMachine)
    (B : SessionState) (reason : String) (av : Option Bool) (now : Int) :
    ((transition m B reason av now).1 = false ↔
      B ∉ LEGAL_TRANSITIONS m.current_state)
    ∧ ((transition m B reason av now).1 = false →
        (transition m B reason av now).2 = m)
    ∧ ((transition m B reason av now).1 = true →
        (transition m B reason av now).2.current_state = B
        ∧ (transition m B reason av now).2.audit_log =
            m.audit_log ++
              [{ timestamp := now
                 event_type := "STATE_TRANSITION"
                 from_state := some m.current_state
                 to_state := some B
                 reason := reason
                 authority_valid := av }]) := by
  by_cases h : B ∈ LEGAL_TRANSITIONS m.current_state <;>
    simp [transition, transitionEntry, h]

/-- Concrete machine for the C1 witness: fresh machine in S0. -/
def mC1 : SessionStateMachine := { session_id := "witness-session" }

/-- Witness for C1: from S0, the legal transition to S1 succeeds, changes
the state and appends the STATE_TRANSITION entry; the illegal transition
to S3 leaves the machine unchanged. -/
theorem C1_transition_iff_legal_witness :
    (transition mC1 SessionState.S1_SESSION_REQUESTED "request" none 0).2.current_state
        = SessionState.S1_SESSION_REQUESTED
    ∧ (transition mC1 SessionState.S3_EXECUTING "skip" none 0).2 = mC1 :=
  ⟨((C1_transition_iff_legal mC1 SessionState.S1_SESSION_REQUESTED "request"
      none 0).2.2 (by decide)).1,
   (C1_transition_iff_legal mC1 SessionState.S3_EXECUTING "skip"
      none 0).2.1 (by decide)⟩

/-- Claim C7: the only legal edges into S3_EXECUTING come from
S2_CONSENT_GRANTED and S4_ACC_CHECKPOINT; in particular there is no edge
from S5_PAUSED, S6_HALTED or S7_COMPLETED to S3_EXECUTING, and in every
legal transition sequence the predecessor of an S3 occurrence is S2 or S4. -/
theorem C7_never_auto_resume :
    (∀ s : SessionState, LegalStep s SessionState.S3_EXECUTING ↔
      (s = SessionState.S2_CONSENT_GRANTED ∨ s = SessionState.S4_ACC_CHECKPOINT))
    ∧ ¬ LegalStep SessionState.S5_PAUSED SessionState.S3_EXECUTING
    ∧ ¬ LegalStep SessionState.S6_HALTED SessionState.S3_EXECUTING
    ∧ ¬ LegalStep SessionState.S7_COMPLETED SessionState.S3_EXECUTING
    ∧ ∀ l : List SessionState, l.Chain' LegalStep →
        ∀ i : ℕ, (hi : i + 1 < l.length) →
          l.get ⟨i + 1, hi⟩ = SessionState.S3_EXECUTING →
          (l.get ⟨i, Nat.lt_of_succ_lt hi⟩ = SessionState.S2_CONSENT_GRANTED
           ∨ l.get ⟨i, Nat.lt_of_succ_lt hi⟩ = SessionState.S4_ACC_CHECKPOINT) := by
  refine ⟨by decide, by decide, by decide, by decide, ?_⟩
  intro l hchain i hi hS3
  have hstep : LegalStep (l.get ⟨i, Nat.lt_of_succ_lt hi⟩) (l.get ⟨i + 1, hi⟩) := by
    have := List.chain'_iff_get.mp hchain i (by omega)
    exact this
  rw [hS3] at hstep
  revert hstep
  generalize l.get ⟨i, Nat.lt_of_succ_lt hi⟩ = s
  revert s
  decide

/-- Concrete legal resume path for the C7 witness. -/
def pathC7 : List SessionState :=
  [SessionState.S5_PAUSED, SessionState.S4_ACC_CHECKPOINT,
   SessionState.S3_EXECUTING]

/-- Witness for C7: on the legal chain S5 → S4 → S3, the predecessor of
the S3 occurrence is S2 or S4. -/
theorem C7_never_auto_resume_witness :
    pathC7.get ⟨1, by decide⟩ = SessionState.S2_CONSENT_GRANTED
    ∨ pathC7.get ⟨1, by decide⟩ = SessionState.S4_ACC_CHECKPOINT :=
  C7_never_auto_resume.2.2.2.2 pathC7
    (by
      simp only [pathC7, List.chain'_cons, List.chain'_singleton, and_true]
      exact ⟨by decide, by decide⟩)
    1 (by decide) (by decide)

/-- Claim C3: `validate_token` on an unknown id returns false with the
manager untouched (so no audit entry); on a known token it returns true
iff the token is not revoked and `now < issued_at + ttl_seconds` (the
boundary `now = issued_at + ttl_seconds` already validates false), and it
appends one AUTHORITY_CHECK entry carrying the result. -/
theorem C3_validate_token_spec (m : AuthorityManager) (token_id : String)
    (now : Int) :
    (m.tokens.lookup token_id = none →
      validate_token m token_id now = (false, m))
    ∧ ∀ tok : AuthorityToken, m.tokens.lookup token_id = some tok →
        (((validate_token m token_id now).1 = true ↔
            (tok.is_revoked = false ∧ now < tok.issued_at + tok.ttl_seconds))
         ∧ (tok.issued_at + tok.ttl_seconds ≤ now →
              (validate_token m token_id now).1 = false)
         ∧ (validate_token m token_id now).2.audit_log =
             m.audit_log.map (fun l => l ++
               [authorityCheckEntry token_id (validate_token m token_id now).1
                  now])
         ∧ (authorityCheckEntry token_id (validate_token m token_id now).1
              now).event_type = "AUTHORITY_CHECK"
         ∧ (authorityCheckEntry token_id (validate_token m token_id now).1
              now).authority_valid = some (validate_token m token_id now).1) := by
  constructor
  · intro h
    simp [validate_token, h]
  · intro tok h
    refine ⟨?_, ?_, ?_, rfl, rfl⟩
    · simp [validate_token, h, AuthorityToken.is_valid,
        AuthorityToken.is_expired, not_le, and_comm]
    · intro hexp
      simp [validate_token, h, AuthorityToken.is_valid,
        AuthorityToken.is_expired, hexp]
    · simp [validate_token, h]

/-- Concrete manager for the C3 witness: one token issued at time 0 with
a 60-second TTL. -/
def tokC3 : AuthorityToken :=
  { token_id := "tok-c3"
    session_id := "s"
    issued_at := 0
    ttl_seconds := 60
    scope := "mix_track" }

/-- Concrete manager holding `tokC3` with an attached (empty) audit log. -/
def mgrC3 : AuthorityManager :=
  { tokens := [("tok-c3", tokC3)], audit_log := some [] }

/-- Witness for C3: the 60-second token issued at t0 = 0 validates true
at 0 and false at 65. -/
theorem C3_validate_token_spec_witness :
    (validate_token mgrC3 "tok-c3" 0).1 = true
    ∧ (validate_token mgrC3 "tok-c3" 65).1 = false :=
  ⟨(((C3_validate_token_spec mgrC3 "tok-c3" 0).2 tokC3 (by decide)).1).mpr
      ⟨rfl, by decide⟩,
   ((C3_validate_token_spec mgrC3 "tok-c3" 65).2 tokC3 (by decide)).2.1
      (by decide)⟩

/-- Claim C9: `check_silence` is true when no user action was ever
recorded; otherwise it is true iff `now - last_action > timeout` (strict),
so exactly at the boundary it is false. -/
theorem C9_check_silence_spec (s : SilenceTracker) (now : Int) :
    (s.last_user_action_time = none → s.check_silence now = true)
    ∧ ∀ t : Int, s.last_user_action_time = some t →
        ((s.check_silence now = true ↔ s.timeout_seconds < now - t)
         ∧ (now - t = s.timeout_seconds → s.check_silence now = false)) := by
  constructor
  · intro h
    simp [SilenceTracker.check_silence, h]
  · intro t h
    constructor
    · simp [SilenceTracker.check_silence, h]
    · intro hb
      simp [SilenceTracker.check_silence, h, ← hb]

/-- Concrete trackers for the C9 witness. -/
def trackerC9 : SilenceTracker :=
  { timeout_seconds := 30, last_user_action_time := some 0 }

/-- Witness for C9: a fresh tracker reports silence; a tracker whose last
action was exactly `timeout_seconds` ago does not. -/
theorem C9_check_silence_spec_witness :
    SilenceTracker.check_silence { timeout_seconds := 30 } 100 = true
    ∧ trackerC9.check_silence 30 = false :=
  ⟨(C9_check_silence_spec { timeout_seconds := 30 } 100).1 rfl,
   ((C9_check_silence_spec trackerC9 30).2 0 rfl).2 (by decide)⟩

/-- Claim C10: a TTL enforcer on which `initialize` was never called is
never expired, reports zero remaining time, and makes the guard's
`ttl_valid` condition pass exactly as supplying no enforcer does. -/
theorem C10_uninitialized_ttl_spec (e : TTLEnforcer) (now : Int) :
    e.created_at = none →
      (e.is_expired now = false
       ∧ e.get_remaining now = 0
       ∧ check_ttl_valid (some e) now = true
       ∧ check_ttl_valid (some e) now = check_ttl_valid none now) := by
  intro h
  simp [TTLEnforcer.is_expired, TTLEnforcer.get_remaining, check_ttl_valid, h]

/-- Witness for C10: an enforcer constructed with a 10-second TTL but
never initialized passes the guard's TTL condition at time 1000000. -/
theorem C10_uninitialized_ttl_spec_witness :
    TTLEnforcer.is_expired { ttl_seconds := 10 } 1000000 = false
    ∧ TTLEnforcer.get_remaining { ttl_seconds := 10 } 1000000 = 0
    ∧ check_ttl_valid (some { ttl_seconds := 10 }) 1000000 = true
    ∧ check_ttl_valid (some { ttl_seconds := 10 }) 1000000 =
        check_ttl_valid none 1000000 :=
  C10_uninitialized_ttl_spec { ttl_seconds := 10 } 1000000 rfl

theorem lookup_append_some {α : Type} (l l2 : List (String × α))
    (tid : String) (v : α) (h : l.lookup tid = some v) :
    (l ++ l2).lookup tid = some v := by
  induction l with
  | nil => simp [List.lookup] at h
  | cons p t ih =>
    obtain ⟨pk, pv⟩ := p
    rw [List.cons_append, List.lookup_cons] at *
    cases hb : (tid == pk) <;> simp_all

theorem lookup_updateEntry {α : Type} (l : List (String × α)) (k tid : String)
    (f : α → α) :
    (updateEntry l k f).lookup tid =
      (l.lookup tid).map (fun v => if tid = k then f v else v) := by
  induction l with
  | nil => simp [updateEntry, List.lookup]
  | cons p t ih =>
    obtain ⟨pk, pv⟩ := p
    simp only [updateEntry, List.map_cons] at *
    by_cases h1 : pk = k
    · subst h1
      simp only [if_pos rfl]
      cases hb : (tid == pk) with
      | true =>
        have htid : tid = pk := beq_iff_eq.mp hb
        simp [List.lookup_cons, hb, htid]
      | false =>
        simp [List.lookup_cons, hb, ih]
    · simp only [if_neg h1]
      cases hb : (tid == pk) with
      | true =>
        have htid : tid = pk := beq_iff_eq.mp hb
        simp [List.lookup_cons, hb, htid, h1]
      | false =>
        simp [List.lookup_cons, hb, ih]

theorem validate_token_tokens_eq (m : AuthorityManager) (tid : String)
    (now : Int) : (validate_token m tid now).2.tokens = m.tokens := by
  unfold validate_token
  cases m.tokens.lookup tid <;> simp

theorem revoke_token_preserves_revoked (m : AuthorityManager)
    (tid tid' : String) (t : Int) (tok : AuthorityToken)
    (h : m.tokens.lookup tid = some tok) (hrev : tok.is_revoked = true) :
    ∃ tok' : AuthorityToken,
      (revoke_token m tid' t).tokens.lookup tid = some tok'
      ∧ tok'.is_revoked = true := by
  unfold revoke_token
  cases hl : m.tokens.lookup tid' with
  | none => exact ⟨tok, h, hrev⟩
  | some tok2 =>
    refine ⟨if tid = tid' then tok.revoke t else tok, ?_, ?_⟩
    · rw [lookup_updateEntry, h]
      simp
    · by_cases he : tid = tid' <;> simp [he, AuthorityToken.revoke, hrev]

theorem foldl_revoke_preserves_revoked (tids : List String)
    (m : AuthorityManager) (tid : String) (t : Int) (tok : AuthorityToken)
    (h : m.tokens.lookup tid = some tok) (hrev : tok.is_revoked = true) :
    ∃ tok' : AuthorityToken,
      (tids.foldl (fun acc x => revoke_token acc x t) m).tokens.lookup tid =
        some tok'
      ∧ tok'.is_revoked = true := by
  induction tids generalizing m tok with
  | nil => exact ⟨tok, h, hrev⟩
  | cons x xs ih =>
    obtain ⟨tok1, h1, hrev1⟩ := revoke_token_preserves_revoked m tid x t tok h hrev
    exact ih (revoke_token m x t) tok1 h1 hrev1

theorem authStep_preserves_revoked (m : AuthorityManager) (op : AuthOp)
    (hfresh : OpFresh m op) (tid : String) (tok : AuthorityToken)
    (h : m.tokens.lookup tid = some tok) (hrev : tok.is_revoked = true) :
    ∃ tok' : AuthorityToken,
      (authStep m op).tokens.lookup tid = some tok'
      ∧ tok'.is_revoked = true := by
  cases op with
  | issue tid0 sid ttl scope now =>
    refine ⟨tok, ?_, hrev⟩
    have hfresh' : m.tokens.lookup tid0 = none := hfresh
    simp only [authStep, issue_token, dictInsert, hfresh', Option.isSome_none,
      Bool.false_eq_true, if_false]
    exact lookup_append_some _ _ _ _ h
  | validate tid0 now =>
    refine ⟨tok, ?_, hrev⟩
    simpa only [authStep, validate_token_tokens_eq] using h
  | revoke tid0 now =>
    exact revoke_token_preserves_revoked m tid tid0 now tok h hrev
  | revokeSession sid now =>
    simp only [authStep, revoke_session_tokens]
    cases m.session_tokens.lookup sid with
    | none => exact ⟨tok, h, hrev⟩
    | some tids => exact foldl_revoke_preserves_revoked tids m tid now tok h hrev

theorem authRun_preserves_revoked (ops : List AuthOp) (m : AuthorityManager)
    (hfresh : FreshRun m ops) (tid : String) (tok : AuthorityToken)
    (h : m.tokens.lookup tid = some tok) (hrev : tok.is_revoked = true) :
    ∃ tok' : AuthorityToken,
      (authRun m ops).tokens.lookup tid = some tok'
      ∧ tok'.is_revoked = true := by
  induction ops generalizing m tok with
  | nil => exact ⟨tok, h, hrev⟩
  | cons op ops ih =>
    obtain ⟨hf, hfs⟩ := hfresh
    obtain ⟨tok1, h1, hrev1⟩ := authStep_preserves_revoked m op hf tid tok h hrev
    exact ih (authStep m op) hfs tok1 h1 hrev1

theorem validate_token_of_revoked (m : AuthorityManager) (tid : String)
    (tok : AuthorityToken) (h : m.tokens.lookup tid = some tok)
    (hrev : tok.is_revoked = true) (now : Int) :
    (validate_token m tid now).1 = false := by
  simp [validate_token, h, AuthorityToken.is_valid, hrev]

/-- Claim C4: revocation is monotonic, idempotent and overrides TTL.
After `revoke_token` on a known token the token is revoked and
`validate_token` is false at every time (in particular before the original
expiry); a second `revoke_token` leaves it revoked; no operation of the
manager interface (with fresh UUIDs for issuance) ever resets the flag;
`revoke_token` on an unknown id is a no-op. -/
theorem C4_revocation_monotonic (m : AuthorityManager) (tid : String)
    (t : Int) :
    (m.tokens.lookup tid = none → revoke_token m tid t = m)
    ∧ (∀ tok : AuthorityToken, m.tokens.lookup tid = some tok →
        ((revoke_token m tid t).tokens.lookup tid = some (tok.revoke t)
         ∧ (tok.revoke t).is_revoked = true
         ∧ (∀ now : Int,
             (validate_token (revoke_token m tid t) tid now).1 = false)
         ∧ ∀ t2 : Int, ∃ tok2 : AuthorityToken,
             (revoke_token (revoke_token m tid t) tid t2).tokens.lookup tid =
               some tok2
             ∧ tok2.is_revoked = true))
    ∧ (∀ m2 : AuthorityManager, ∀ tok2 : AuthorityToken,
        m2.tokens.lookup tid = some tok2 → tok2.is_revoked = true →
        ∀ ops : List AuthOp, FreshRun m2 ops →
          ∃ tok3 : AuthorityToken,
            (authRun m2 ops).tokens.lookup tid = some tok3
            ∧ tok3.is_revoked = true
            ∧ ∀ now : Int, (validate_token (authRun m2 ops) tid now).1 = false) := by
  refine ⟨?_, ?_, ?_⟩
  · intro h
    unfold revoke_token
    simp [h]
  · intro tok h
    have hlook : (revoke_token m tid t).tokens.lookup tid = some (tok.revoke t) := by
      unfold revoke_token
      rw [h]
      rw [lookup_updateEntry, h]
      simp
    refine ⟨hlook, rfl, ?_, ?_⟩
    · intro now
      exact validate_token_of_revoked _ tid _ hlook rfl now
    · intro t2
      exact revoke_token_preserves_revoked _ tid tid t2 _ hlook rfl
  · intro m2 tok2 h2 hrev2 ops hfresh
    obtain ⟨tok3, h3, hrev3⟩ :=
      authRun_preserves_revoked ops m2 hfresh tid tok2 h2 hrev2
    exact ⟨tok3, h3, hrev3,
      fun now => validate_token_of_revoked _ tid _ h3 hrev3 now⟩

/-- Concrete token for the C4 witness. -/
def tokC4 : AuthorityToken :=
  { token_id := "tok-c4"
    session_id := "s"
    issued_at := 0
    ttl_seconds := 60
    scope := "mix" }

/-- Concrete manager holding `tokC4` for the C4 witness. -/
def mgrC4 : AuthorityManager :=
  { tokens := [("tok-c4", tokC4)]
    session_tokens := [("s", ["tok-c4"])]
    audit_log := some [] }

/-- Witness for C4: revoking the known 60-second token at time 1 makes
`validate_token` false already at time 2 (well before the original expiry
at 60), and the revoked flag survives a later validate-revoke-validate
operation sequence. -/
theorem C4_revocation_monotonic_witness :
    (validate_token (revoke_token mgrC4 "tok-c4" 1) "tok-c4" 2).1 = false
    ∧ ∃ tok3 : AuthorityToken,
        (authRun (revoke_token mgrC4 "tok-c4" 1)
            [AuthOp.validate "tok-c4" 3, AuthOp.revoke "tok-c4" 4,
             AuthOp.validate "tok-c4" 5]).tokens.lookup "tok-c4" = some tok3
        ∧ tok3.is_revoked = true
        ∧ ∀ now : Int,
            (validate_token (authRun (revoke_token mgrC4 "tok-c4" 1)
              [AuthOp.validate "tok-c4" 3, AuthOp.revoke "tok-c4" 4,
               AuthOp.validate "tok-c4" 5]) "tok-c4" now).1 = false := by
  constructor
  · exact (((C4_revocation_monotonic mgrC4 "tok-c4" 1).2.1 tokC4
      (by decide)).2.2.1) 2
  · refine (C4_revocation_monotonic mgrC4 "tok-c4" 1).2.2
      (revoke_token mgrC4 "tok-c4" 1) (tokC4.revoke 1) ?_ rfl _ ?_
    · exact ((C4_revocation_monotonic mgrC4 "tok-c4" 1).2.1 tokC4 (by decide)).1
    · simp [FreshRun, OpFresh]

theorem validate_confirmation_used (hash : String → String)
    (m : ConfirmationManager) (tid r : String) (t : Int)
    (tok : ConfirmationToken) (h : m.tokens.lookup tid = some tok)
    (hused : tok.is_used = true) :
    (validate_confirmation hash m tid r t).1 = false
    ∧ (validate_confirmation hash m tid r t).2.tokens.lookup tid =
        some (tok.mark_used false t) := by
  constructor
  · simp [validate_confirmation, h, ConfirmationToken.can_validate, hused]
  · simp [validate_confirmation, h, ConfirmationToken.can_validate, hused,
      lookup_updateEntry]

theorem validate_confirmation_fresh (hash : String → String)
    (m : ConfirmationManager) (tid r : String) (now : Int)
    (tok : ConfirmationToken) (h : m.tokens.lookup tid = some tok)
    (hunused : tok.is_used = false)
    (hfresh : now < tok.issued_at + tok.ttl_seconds) :
    (validate_confirmation hash m tid r now).1 =
        decide (hash r = tok.challenge_hash)
    ∧ (validate_confirmation hash m tid r now).2.tokens.lookup tid =
        some (tok.mark_used (decide (hash r = tok.challenge_hash)) now) := by
  have hcan : tok.can_validate now = true := by
    simp [ConfirmationToken.can_validate, ConfirmationToken.is_expired,
      hunused, not_le.mpr hfresh]
  constructor
  · simp [validate_confirmation, h, hcan]
  · simp [validate_confirmation, h, hcan, lookup_updateEntry]

/-- Claim C5: confirmation tokens are single-use and consumed by any
attempt.  Unknown id: false, no mutation.  On a fresh unexpired token the
first call returns true exactly when the hash of the response matches the
stored challenge hash, and the token is marked used with that outcome;
every subsequent call on the same token returns false — in particular
after a wrong or expired first attempt even the correct response fails. -/
theorem C5_confirmation_single_use (hash : String → String)
    (m : ConfirmationManager) (tid : String) (now : Int) :
    (m.tokens.lookup tid = none → ∀ resp : String,
        validate_confirmation hash m tid resp now = (false, m))
    ∧ ∀ tok : ConfirmationToken, m.tokens.lookup tid = some tok →
        ((tok.is_used = false → now < tok.issued_at + tok.ttl_seconds →
           ∀ resp : String,
             ((hash resp = tok.challenge_hash →
                ((validate_confirmation hash m tid resp now).1 = true
                 ∧ (validate_confirmation hash m tid resp now).2.tokens.lookup tid =
                     some (tok.mark_used true now)))
              ∧ ((hash resp = tok.challenge_hash → False) →
                ((validate_confirmation hash m tid resp now).1 = false
                 ∧ (validate_confirmation hash m tid resp now).2.tokens.lookup tid =
                     some (tok.mark_used false now)))
              ∧ ∀ (hash2 : String → String) (resp2 : String) (t2 : Int),
                  (validate_confirmation hash2
                    (validate_confirmation hash m tid resp now).2
                    tid resp2 t2).1 = false))
         ∧ (tok.is_used = false → tok.issued_at + tok.ttl_seconds ≤ now →
             ∀ resp : String,
               ((validate_confirmation hash m tid resp now).1 = false
                ∧ (validate_confirmation hash m tid resp now).2.tokens.lookup tid =
                    some (tok.mark_used false now)
                ∧ ∀ (hash2 : String → String) (resp2 : String) (t2 : Int),
                    (validate_confirmation hash2
                      (validate_confirmation hash m tid resp now).2
                      tid resp2 t2).1 = false))
         ∧ (tok.is_used = true → ∀ resp : String,
             (validate_confirmation hash m tid resp now).1 = false)) := by
  constructor
  · intro h resp
    simp [validate_confirmation, h]
  · intro tok h
    refine ⟨?_, ?_, ?_⟩
    · intro hunused hfresh resp
      obtain ⟨hres, hstate⟩ :=
        validate_confirmation_fresh hash m tid resp now tok h hunused hfresh
      refine ⟨?_, ?_, ?_⟩
      · intro hc
        rw [hres, hstate]
        simp [hc]
      · intro hc
        rw [hres, hstate]
        have hdec : decide (hash resp = tok.challenge_hash) = false := by
          simpa using hc
        simp [hdec]
      · intro hash2 resp2 t2
        have hstate' : (validate_confirmation hash m tid resp now).2.tokens.lookup tid =
            some (tok.mark_used (decide (hash resp = tok.challenge_hash)) now) :=
          hstate
        exact (validate_confirmation_used hash2 _ tid resp2 t2 _ hstate' rfl).1
    · intro hunused hexp resp
      have hused_state := validate_confirmation_used hash m tid resp now tok h
      have hcan : tok.can_validate now = false := by
        simp [ConfirmationToken.can_validate, ConfirmationToken.is_expired, hexp]
      have hres : (validate_confirmation hash m tid resp now).1 = false := by
        simp [validate_confirmation, h, hcan]
      have hstate : (validate_confirmation hash m tid resp now).2.tokens.lookup tid =
          some (tok.mark_used false now) := by
        simp [validate_confirmation, h, hcan, lookup_updateEntry]
      exact ⟨hres, hstate,
        fun hash2 resp2 t2 =>
          (validate_confirmation_used hash2 _ tid resp2 t2 _ hstate rfl).1⟩
    · intro hused resp
      exact (validate_confirmation_used hash m tid resp now tok h hused).1

/-- Concrete confirmation token for the C5 witness: challenge hash is the
image of the correct response under the identity stand-in hash. -/
def tokC5 : ConfirmationToken :=
  { token_id := "conf-c5"
    session_id := "s"
    acc_event_id := "acc-1"
    confirmation_type := ConfirmationType.TYPE_CODE
    issued_at := 0
    ttl_seconds := 300
    challenge_payload := "Type this code to continue: AB1CD2"
    challenge_hash := "AB1CD2" }

/-- Concrete manager holding `tokC5` for the C5 witness. -/
def mgrC5 : ConfirmationManager :=
  { tokens := [("conf-c5", tokC5)], audit_log := some [] }

/-- Witness for C5 (hash instantiated with the identity function): the
correct response validates true once, and the identical second call on
the same token returns false. -/
theorem C5_confirmation_single_use_witness :
    (validate_confirmation (fun s => s) mgrC5 "conf-c5" "AB1CD2" 1).1 = true
    ∧ (validate_confirmation (fun s => s)
        (validate_confirmation (fun s => s) mgrC5 "conf-c5" "AB1CD2" 1).2
        "conf-c5" "AB1CD2" 2).1 = false := by
  have hmain := (C5_confirmation_single_use (fun s => s) mgrC5 "conf-c5" 1).2
    tokC5 (by decide)
  have hfirst := hmain.1 rfl (by decide) "AB1CD2"
  exact ⟨(hfirst.1 rfl).1, hfirst.2.2 (fun s => s) "AB1CD2" 2⟩

/-- Claim C8: `mark_used` is reached again by a replayed
`validate_confirmation`: after a first successful validation at t1 the
token stores was_valid = some true and used_at = some t1, and a second
call at t2 overwrites both to was_valid = some false and used_at = some
t2. -/
theorem C8_mark_used_overwrites (hash : String → String)
    (m : ConfirmationManager) (tid resp : String) (now : Int)
    (tok : ConfirmationToken) (h : m.tokens.lookup tid = some tok)
    (hunused : tok.is_used = false)
    (hfresh : now < tok.issued_at + tok.ttl_seconds)
    (hc : hash resp = tok.challenge_hash)
    (hash2 : String → String) (resp2 : String) (t2 : Int) :
    ((validate_confirmation hash m tid resp now).1 = true
     ∧ (validate_confirmation hash m tid resp now).2.tokens.lookup tid =
         some (tok.mark_used true now)
     ∧ (tok.mark_used true now).was_valid = some true
     ∧ (tok.mark_used true now).used_at = some now)
    ∧ ((validate_confirmation hash2
          (validate_confirmation hash m tid resp now).2 tid resp2 t2).2.tokens.lookup tid =
        some ((tok.mark_used true now).mark_used false t2)
       ∧ ((tok.mark_used true now).mark_used false t2).was_valid = some false
       ∧ ((tok.mark_used true now).mark_used false t2).used_at = some t2) := by
  obtain ⟨hres, hstate⟩ :=
    validate_confirmation_fresh hash m tid resp now tok h hunused hfresh
  have hdec : decide (hash resp = tok.challenge_hash) = true := by
    simpa using hc
  rw [hdec] at hres hstate
  refine ⟨⟨hres, hstate, rfl, rfl⟩, ?_, rfl, rfl⟩
  exact (validate_confirmation_used hash2 _ tid resp2 t2 _ hstate rfl).2

/-- Witness for C8: on the concrete manager of the C5 witness, the second
call at time 7 overwrites the stored outcome of the successful first
validation at time 3. -/
theorem C8_mark_used_overwrites_witness :
    (validate_confirmation (fun s => s)
        (validate_confirmation (fun s => s) mgrC5 "conf-c5" "AB1CD2" 3).2
        "conf-c5" "AB1CD2" 7).2.tokens.lookup "conf-c5" =
      some ((tokC5.mark_used true 3).mark_used false 7)
    ∧ ((tokC5.mark_used true 3).mark_used false 7).was_valid = some false
    ∧ ((tokC5.mark_used true 3).mark_used false 7).used_at = some 7 :=
  (C8_mark_used_overwrites (fun s => s) mgrC5 "conf-c5" "AB1CD2" 3 tokC5
    (by decide) rfl (by decide) rfl (fun s => s) "AB1CD2" 7).2

theorem check_in_executing_state_iff (g : ExecutionGuard) :
    check_in_executing_state g = true ↔
      g.state_machine.current_state = S3_EXECUTING := by
  simp [check_in_executing_state]

theorem check_authority_valid_iff (g : ExecutionGuard) (now : Int) :
    (check_authority_valid g now).1 = true ↔
      ∃ tid : String, g.current_token_id = some tid
        ∧ (validate_token g.authority_manager tid now).1 = true := by
  unfold check_authority_valid
  cases g.current_token_id <;> simp

theorem check_ttl_valid_iff (o : Option TTLEnforcer) (now : Int) :
    check_ttl_valid o now = true ↔
      ∀ e : TTLEnforcer, o = some e → e.is_expired now = false := by
  unfold check_ttl_valid
  cases o <;> simp

theorem check_silence_not_exceeded_iff (o : Option SilenceTracker)
    (now : Int) :
    check_silence_not_exceeded o now = true ↔
      ∀ s : SilenceTracker, o = some s → s.check_silence now = false := by
  unfold check_silence_not_exceeded
  cases o <;> simp

theorem check_boundary_not_crossed_iff
    (cf ct cm sf st2 sm : Option String) :
    check_boundary_not_crossed cf ct cm sf st2 sm = true ↔
      (pairCrossed cf sf = false ∧ pairCrossed ct st2 = false
       ∧ pairCrossed cm sm = false) := by
  unfold check_boundary_not_crossed
  cases h1 : truthy cf <;> cases h2 : truthy ct <;> cases h3 : truthy cm <;>
    cases h4 : truthy sf <;> cases h5 : truthy st2 <;> cases h6 : truthy sm <;>
    simp [pairCrossed, h1, h2, h3, h4, h5, h6, and_assoc]

theorem check_capability_in_registry_iff (cid : String)
    (o : Option (List String)) :
    check_capability_in_registry cid o = true ↔
      ∀ reg : List String, o = some reg → cid ∈ reg := by
  unfold check_capability_in_registry
  cases o <;> simp

theorem check_confidence_not_degraded_iff (q : ℚ) :
    check_confidence_not_degraded q = true ↔ ¬(q < mkRat 1 2) := by
  simp [check_confidence_not_degraded]

theorem can_execute_step_fst (g : ExecutionGuard) (a : GuardArgs)
    (now : Int) :
    (can_execute_step g a now).1 =
      (guardConditions g a now).all (fun c => c.2) := by
  cases hall : (guardConditions g a now).all (fun c => c.2) <;>
    simp [can_execute_step, hall]

theorem mem_guardFailed_iff (g : ExecutionGuard) (a : GuardArgs)
    (now : Int) (nm : String) :
    nm ∈ guardFailed g a now ↔ (nm, false) ∈ guardConditions g a now := by
  unfold guardFailed
  constructor
  · intro h
    obtain ⟨⟨n, b⟩, hc, hn⟩ := List.mem_map.mp h
    obtain ⟨hmem, hb⟩ := List.mem_filter.mp hc
    have hb' : b = false := by simpa using hb
    have hn' : n = nm := hn
    rw [hb', hn'] at hmem
    exact hmem
  · intro h
    exact List.mem_map.mpr ⟨(nm, false), List.mem_filter.mpr ⟨h, by simp⟩, rfl⟩

/-- Claim C2: `can_execute_step` returns true iff all seven guard
conditions hold; whenever it returns false it appends one
EXECUTION_GUARD_FAILED entry to the state machine's audit log whose
failed-conditions list names exactly the failing conditions (and appends
nothing to that log on success); and `enforce_halt_on_failure` raises
ExecutionGuardViolation exactly when `can_execute_step` is false. -/
theorem C2_guard_conjunction (g : ExecutionGuard) (a : GuardArgs)
    (now : Int) :
    ((can_execute_step g a now).1 = true ↔
      (g.state_machine.current_state = S3_EXECUTING
       ∧ (∃ tid : String, g.current_token_id = some tid
            ∧ (validate_token g.authority_manager tid now).1 = true)
       ∧ (∀ e : TTLEnforcer, a.ttl_enforcer = some e →
            e.is_expired now = false)
       ∧ (∀ s : SilenceTracker, a.silence_tracker = some s →
            s.check_silence now = false)
       ∧ (pairCrossed a.current_file a.session_file = false
          ∧ pairCrossed a.current_tool a.session_tool = false
          ∧ pairCrossed a.current_modality a.session_modality = false)
       ∧ (∀ reg : List String, a.capability_registry = some reg →
            a.capability_id ∈ reg)
       ∧ ¬(a.confidence_score < mkRat 1 2)))
    ∧ ((can_execute_step g a now).1 = false →
        ((can_execute_step g a now).2.state_machine.audit_log =
            g.state_machine.audit_log ++ [guardFailedEntry g a now]
         ∧ (guardFailedEntry g a now).event_type = "EXECUTION_GUARD_FAILED"
         ∧ (guardFailedEntry g a now).extra = some (guardFailed g a now)
         ∧ ∀ nm : String, nm ∈ guardFailed g a now ↔
             (nm, false) ∈ guardConditions g a now))
    ∧ ((can_execute_step g a now).1 = true →
        (can_execute_step g a now).2.state_machine = g.state_machine)
    ∧ ((enforce_halt_on_failure g a now).1 = true ↔
        (can_execute_step g a now).1 = false) := by
  refine ⟨?_, ?_, ?_, ?_⟩
  · rw [can_execute_step_fst]
    simp only [guardConditions, List.all_cons, List.all_nil, Bool.and_true,
      Bool.and_eq_true]
    rw [check_in_executing_state_iff, check_authority_valid_iff,
      check_ttl_valid_iff, check_silence_not_exceeded_iff,
      check_boundary_not_crossed_iff, check_capability_in_registry_iff,
      check_confidence_not_degraded_iff]
  · intro hfail
    have hall : (guardConditions g a now).all (fun c => c.2) = false := by
      rw [← can_execute_step_fst]
      exact hfail
    refine ⟨?_, rfl, rfl, fun nm => mem_guardFailed_iff g a now nm⟩
    simp [can_execute_step, hall]
  · intro hok
    have hall : (guardConditions g a now).all (fun c => c.2) = true := by
      rw [← can_execute_step_fst]
      exact hok
    simp [can_execute_step, hall]
  · unfold enforce_halt_on_failure
    simp

/-- Concrete machine in S3 for the C2 witness. -/
def mC2 : SessionStateMachine :=
  { session_id := "s", current_state := S3_EXECUTING }

/-- Concrete revoked-but-unexpired token for the C2 witness. -/
def tokC2 : AuthorityToken :=
  { token_id := "tok-c2"
    session_id := "s"
    issued_at := 0
    ttl_seconds := 60
    scope := "mix"
    is_revoked := true
    revoked_at := some 1 }

/-- Concrete guard for the C2 witness: state S3, supplied token revoked,
every other condition passing (absent collaborators, confidence 1). -/
def gC2 : ExecutionGuard :=
  { state_machine := mC2
    authority_manager := { tokens := [("tok-c2", tokC2)], audit_log := some [] }
    current_token_id := some "tok-c2" }

/-- Concrete guard arguments for the C2 witness. -/
def aC2 : GuardArgs := { capability_id := "apply_eq" }

/-- Witness for C2, instantiating the claim's particular scenario: state
is S3, every other condition passes, the supplied token is revoked; the
guard returns false, the failed-conditions list is exactly
["authority_valid"], the EXECUTION_GUARD_FAILED entry is appended, and
`enforce_halt_on_failure` raises. -/
theorem C2_guard_conjunction_witness :
    (can_execute_step gC2 aC2 5).1 = false
    ∧ guardFailed gC2 aC2 5 = ["authority_valid"]
    ∧ (can_execute_step gC2 aC2 5).2.state_machine.audit_log =
        gC2.state_machine.audit_log ++ [guardFailedEntry gC2 aC2 5]
    ∧ (guardFailedEntry gC2 aC2 5).extra = some ["authority_valid"]
    ∧ (enforce_halt_on_failure gC2 aC2 5).1 = true := by
  have hfail : (can_execute_step gC2 aC2 5).1 = false := by decide
  have hflist : guardFailed gC2 aC2 5 = ["authority_valid"] := by decide
  have hparts := (C2_guard_conjunction gC2 aC2 5).2.1 hfail
  refine ⟨hfail, hflist, hparts.1, ?_, ?_⟩
  · rw [hparts.2.2.1, hflist]
  · exact (C2_guard_conjunction gC2 aC2 5).2.2.2.mpr hfail

/-- Already-used confirmation token for the C6 counterexample: its first,
legitimate validation happened at time 1 with outcome true. -/
def tokC6 : ConfirmationToken :=
  { token_id := "conf-c6"
    session_id := "s"
    acc_event_id := "acc-6"
    confirmation_type := ConfirmationType.TYPE_CODE
    issued_at := 0
    ttl_seconds := 300
    challenge_payload := "Type this code to continue: ZZ9YY8"
    challenge_hash := "ZZ9YY8"
    is_used := true
    used_at := some 1
    was_valid := some true }

/-- Concrete manager for the C6 counterexample, with an attached (empty)
audit log. -/
def mgrC6 : ConfirmationManager :=
  { tokens := [("conf-c6", tokC6)], audit_log := some [] }

/-- Counterexample for claim C6: `validate_confirmation` on a known but
already-used confirmation token is a state-changing operation that
completes normally (returning false) — it overwrites the stored token's
`used_at`/`was_valid` — yet appends zero audit entries, so the claimed
exactly-one-entry-per-state-changing-operation invariant fails here. -/
theorem C6_audit_invariant_counterexample :
    (validate_confirmation (fun s => s) mgrC6 "conf-c6" "ZZ9YY8" 9).1 = false
    ∧ (validate_confirmation (fun s => s) mgrC6 "conf-c6" "ZZ9YY8" 9).2.audit_log
        = some []
    ∧ (validate_confirmation (fun s => s) mgrC6 "conf-c6" "ZZ9YY8" 9).2.tokens
        ≠ mgrC6.tokens
    ∧ (validate_confirmation (fun s => s) mgrC6 "conf-c6" "ZZ9YY8"
          9).2.tokens.lookup "conf-c6" = some (tokC6.mark_used false 9) := by
  refine ⟨?_, ?_, ?_, ?_⟩ <;> decide

/-- Claim C6 as amended: every state-changing or authority-deciding core
operation appends exactly one audit entry before returning success and
zero entries when it rejects the request (illegal transition or unknown
id, which leave the receiver unchanged) — except `validate_confirmation`
on a known token that cannot currently validate (already used or
expired), which mutates the token (marks it used with outcome false) yet
appends zero audit entries; the guard appends its EXECUTION_GUARD_FAILED
entry exactly on failure, its authority check logging through the
authority manager either way. -/
theorem C6_audit_invariant_amended (m : SessionStateMachine)
    (B : SessionState) (reason : String) (av : Option Bool)
    (am : AuthorityManager) (atid sid scope : String) (ttl : Int)
    (cmg : ConfirmationManager) (ctid csid caid : String)
    (ct : ConfirmationType) (cpay chash : String)
    (hash : String → String) (resp : String)
    (g : ExecutionGuard) (a : GuardArgs) (now : Int) :
    ((transition m B reason av now).2.audit_log.length =
       m.audit_log.length +
         (if B ∈ LEGAL_TRANSITIONS m.current_state then 1 else 0))
    ∧ ((transition m B reason av now).1 = false →
        (transition m B reason av now).2 = m)
    ∧ (check_can_execute m now).2.audit_log.length = m.audit_log.length + 1
    ∧ (issue_token am atid sid ttl scope now).2.audit_log =
        am.audit_log.map (fun l => l ++ [authorityIssuedEntry atid ttl now])
    ∧ (validate_token am atid now).2.audit_log =
        (match am.tokens.lookup atid with
         | none => am.audit_log
         | some tok => am.audit_log.map (fun l =>
             l ++ [authorityCheckEntry atid (tok.is_valid now) now]))
    ∧ (am.tokens.lookup atid = none → (validate_token am atid now).2 = am)
    ∧ (am.tokens.lookup atid = none → revoke_token am atid now = am)
    ∧ (am.tokens.lookup atid ≠ none →
        (revoke_token am atid now).audit_log =
          am.audit_log.map (fun l => l ++ [authorityRevokedEntry atid now]))
    ∧ (issue_confirmation cmg ctid csid caid ct cpay chash ttl now).2.audit_log =
        cmg.audit_log.map (fun l => l ++ [confirmationIssuedEntry ctid caid now])
    ∧ (cmg.tokens.lookup ctid = none →
        confirmation_revoke_token cmg ctid now = cmg)
    ∧ (cmg.tokens.lookup ctid ≠ none →
        (confirmation_revoke_token cmg ctid now).audit_log =
          cmg.audit_log.map (fun l =>
            l ++ [confirmationRevokedEntry ctid now]))
    ∧ (cmg.tokens.lookup ctid = none →
        (validate_confirmation hash cmg ctid resp now).2 = cmg)
    ∧ ((validate_confirmation hash cmg ctid resp now).2.audit_log =
        (match cmg.tokens.lookup ctid with
         | none => cmg.audit_log
         | some tok =>
           if tok.can_validate now then
             cmg.audit_log.map (fun l =>
               l ++ [confirmationValidatedEntry ctid
                 (decide (hash resp = tok.challenge_hash)) now])
           else cmg.audit_log))
    ∧ (∀ tok : ConfirmationToken, cmg.tokens.lookup ctid = some tok →
        tok.can_validate now = false →
        (validate_confirmation hash cmg ctid resp now).2.tokens.lookup ctid =
          some (tok.mark_used false now))
    ∧ ((can_execute_step g a now).1 = true →
        (can_execute_step g a now).2.state_machine = g.state_machine)
    ∧ ((can_execute_step g a now).1 = false →
        (can_execute_step g a now).2.state_machine.audit_log =
          g.state_machine.audit_log ++ [guardFailedEntry g a now])
    ∧ (can_execute_step g a now).2.authority_manager =
        (check_authority_valid g now).2 := by
  refine ⟨?_, ?_, ?_, ?_, ?_, ?_, ?_, ?_, ?_, ?_, ?_, ?_, ?_, ?_, ?_, ?_, ?_⟩
  · by_cases h : B ∈ LEGAL_TRANSITIONS m.current_state <;>
      simp [transition, h]
  · intro h
    by_cases hB : B ∈ LEGAL_TRANSITIONS m.current_state <;>
      simp_all [transition]
  · simp [check_can_execute]
  · simp [issue_token]
  · cases hl : am.tokens.lookup atid <;> simp [validate_token, hl]
  · intro h
    simp [validate_token, h]
  · intro h
    simp [revoke_token, h]
  · intro h
    obtain ⟨tok, hl⟩ := Option.ne_none_iff_exists'.mp h
    simp [revoke_token, hl]
  · simp [issue_confirmation]
  · intro h
    simp [confirmation_revoke_token, h]
  · intro h
    obtain ⟨tok, hl⟩ := Option.ne_none_iff_exists'.mp h
    simp [confirmation_revoke_token, hl]
  · intro h
    simp [validate_confirmation, h]
  · cases hl : cmg.tokens.lookup ctid with
    | none => simp [validate_confirmation, hl]
    | some tok =>
      cases hcan : tok.can_validate now <;>
        simp [validate_confirmation, hl, hcan]
  · intro tok hl hcan
    simp [validate_confirmation, hl, hcan, lookup_updateEntry]
  · intro hok
    have hall : (guardConditions g a now).all (fun c => c.2) = true := by
      rw [← can_execute_step_fst]
      exact hok
    simp [can_execute_step, hall]
  · intro hfail
    have hall : (guardConditions g a now).all (fun c => c.2) = false := by
      rw [← can_execute_step_fst]
      exact hfail
    simp [can_execute_step, hall]
  · cases hall : (guardConditions g a now).all (fun c => c.2) <;>
      simp [can_execute_step, hall]

/-- Fresh confirmation token and manager for the C6 witness. -/
def mgrC6w : ConfirmationManager :=
  { tokens := [("conf-w",
      { token_id := "conf-w"
        session_id := "s"
        acc_event_id := "acc-w"
        confirmation_type := ConfirmationType.VOICE_PHRASE
        issued_at := 0
        ttl_seconds := 300
        challenge_payload := "Say this to continue: proceed please"
        challenge_hash := "proceed please" })]
    audit_log := some [] }

/-- Witness for the amended C6, discharging each rejection and failure
hypothesis at concrete inputs: an illegal transition leaves the machine
unchanged; unknown-id validate/revoke and confirmation revoke are no-ops;
unknown-id validate_confirmation is a no-op; the burn path marks the C6
counterexample token used; and the failing concrete guard of the C2
scenario appends its entry. -/
theorem C6_audit_invariant_amended_witness :
    (transition mC1 SessionState.S7_COMPLETED "skip" none 0).2 = mC1
    ∧ (validate_token { tokens := [] } "ghost" 0).2 =
        ({ tokens := [] } : AuthorityManager)
    ∧ revoke_token { tokens := [] } "ghost" 0 =
        ({ tokens := [] } : AuthorityManager)
    ∧ (revoke_token mgrC4 "tok-c4" 3).audit_log =
        mgrC4.audit_log.map (fun l => l ++ [authorityRevokedEntry "tok-c4" 3])
    ∧ confirmation_revoke_token { tokens := [] } "ghost" 0 =
        ({ tokens := [] } : ConfirmationManager)
    ∧ (confirmation_revoke_token mgrC6w "conf-w" 4).audit_log =
        mgrC6w.audit_log.map (fun l =>
          l ++ [confirmationRevokedEntry "conf-w" 4])
    ∧ (validate_confirmation (fun s => s) { tokens := [] } "ghost" "r" 0).2 =
        ({ tokens := [] } : ConfirmationManager)
    ∧ (validate_confirmation (fun s => s) mgrC6 "conf-c6" "r" 9).2.tokens.lookup
        "conf-c6" = some (tokC6.mark_used false 9)
    ∧ (can_execute_step gC2 aC2 5).2.state_machine.audit_log =
        gC2.state_machine.audit_log ++ [guardFailedEntry gC2 aC2 5] := by
  have h1 := (C6_audit_invariant_amended mC1 SessionState.S7_COMPLETED "skip"
    none { tokens := [] } "ghost" "s" "m" 1 { tokens := [] } "ghost" "s" "a"
    ConfirmationType.TYPE_CODE "p" "h" (fun s => s) "r" gC2 aC2 0).2.1
    (by decide)
  have h2 := (C6_audit_invariant_amended mC1 SessionState.S7_COMPLETED "skip"
    none { tokens := [] } "ghost" "s" "m" 1 { tokens := [] } "ghost" "s" "a"
    ConfirmationType.TYPE_CODE "p" "h" (fun s => s) "r" gC2 aC2 0).2.2.2.2.2.1
    rfl
  have h3 := (C6_audit_invariant_amended mC1 SessionState.S7_COMPLETED "skip"
    none { tokens := [] } "ghost" "s" "m" 1 { tokens := [] } "ghost" "s" "a"
    ConfirmationType.TYPE_CODE "p" "h" (fun s => s) "r" gC2 aC2
    0).2.2.2.2.2.2.1 rfl
  have h4 := (C6_audit_invariant_amended mC1 SessionState.S7_COMPLETED "skip"
    none mgrC4 "tok-c4" "s" "m" 3 { tokens := [] } "ghost" "s" "a"
    ConfirmationType.TYPE_CODE "p" "h" (fun s => s) "r" gC2 aC2
    3).2.2.2.2.2.2.2.1 (by decide)
  have h5 := (C6_audit_invariant_amended mC1 SessionState.S7_COMPLETED "skip"
    none { tokens := [] } "ghost" "s" "m" 1 { tokens := [] } "ghost" "s" "a"
    ConfirmationType.TYPE_CODE "p" "h" (fun s => s) "r" gC2 aC2
    0).2.2.2.2.2.2.2.2.2.1 rfl
  have h6 := (C6_audit_invariant_amended mC1 SessionState.S7_COMPLETED "skip"
    none { tokens := [] } "ghost" "s" "m" 1 mgrC6w "conf-w" "s" "a"
    ConfirmationType.TYPE_CODE "p" "h" (fun s => s) "r" gC2 aC2
    4).2.2.2.2.2.2.2.2.2.2.1 (by decide)
  have h7 := (C6_audit_invariant_amended mC1 SessionState.S7_COMPLETED "skip"
    none { tokens := [] } "ghost" "s" "m" 1 { tokens := [] } "ghost" "s" "a"
    ConfirmationType.TYPE_CODE "p" "h" (fun s => s) "r" gC2 aC2
    0).2.2.2.2.2.2.2.2.2.2.2.1 rfl
  have h8 := (C6_audit_invariant_amended mC1 SessionState.S7_COMPLETED "skip"
    none { tokens := [] } "ghost" "s" "m" 1 mgrC6 "conf-c6" "s" "a"
    ConfirmationType.TYPE_CODE "p" "h" (fun s => s) "r" gC2 aC2
    9).2.2.2.2.2.2.2.2.2.2.2.2.2.1 tokC6 (by decide) (by decide)
  have h9 := (C6_audit_invariant_amended mC1 SessionState.S7_COMPLETED "skip"
    none { tokens := [] } "ghost" "s" "m" 1 { tokens := [] } "ghost" "s" "a"
    ConfirmationType.TYPE_CODE "p" "h" (fun s => s) "r" gC2 aC2
    5).2.2.2.2.2.2.2.2.2.2.2.2.2.2.2.1 (by decide)
  exact ⟨h1, h2, h3, h4, h5, h6, h7, h8, h9⟩

end SelfSession
